import Mathlib

/-!
# Verification of `sidmatch.py`

A shallow embedding of the SID extraction and reconciliation core of
`sidmatch.py`, together with proofs of the specification's claims.

Strings are modelled as `List Char` (ASCII model: Python's `\d` is modelled
as `Char.isDigit`, `\w` as alphanumeric-or-underscore, `str.strip()` as
trimming `Char.isWhitespace`).  Python `set` is modelled as `Finset`.
-/

namespace Sidmatch

/-- A table cell, modelled as a list of characters. -/
abbrev Cell := List Char

/-- Regex word character (`\w` of `re`, ASCII model): alphanumeric or underscore. -/
def isWordChar (c : Char) : Bool := c.isAlphanum || c = '_'

/-- Python `s.strip()`: remove leading and trailing whitespace. -/
def pystrip (s : Cell) : Cell :=
  ((s.dropWhile Char.isWhitespace).reverse.dropWhile Char.isWhitespace).reverse

/-- Python `s.lstrip("0")`: remove every leading `'0'` character.
This is the normalizer applied at `sid.lstrip("0")` in `extract_sids_from_csv`. -/
def lstrip0 (s : Cell) : Cell := s.dropWhile (· = '0')

/-- `validate_sid(s)`: `re.fullmatch(r'(?:00)?\d{7}', s) is not None`.
The whole string must be either exactly seven digits, or the literal
prefix `"00"` followed by exactly seven digits. -/
def validate_sid (s : Cell) : Bool :=
  (s.length = 7 && s.all Char.isDigit) ||
  (s.length = 9 && s.take 2 = ['0', '0'] && (s.drop 2).all Char.isDigit)

/-- The fixed-width regex body `00\d{7}`: nine characters, the first two
literal zeros, the remaining seven digits. -/
def sidPattern (m : Cell) : Bool :=
  m.length = 9 && m.take 2 = ['0', '0'] && (m.drop 2).all Char.isDigit

/-- `\b00\d{7}\b` matching at position `i` of `s`: the nine characters
starting at `i` form `00\d{7}`, the character before `i` (if any) is not a
word character, and the character after the match (if any) is not a word
character.  The out-of-range default `'.'` is a non-word character, so the
trailing boundary is satisfied at end of string. -/
def matchAt (s : Cell) (i : Nat) : Bool :=
  sidPattern ((s.drop i).take 9) &&
  (decide (i = 0) || !(isWordChar (s.getD (i - 1) '.'))) &&
  !(isWordChar (s.getD (i + 9) '.'))

/-- Leftmost scan of `re.search`: try positions `i, i+1, ...` (at most `fuel`
of them) and return the first position where the pattern matches. -/
def searchIdxFrom (s : Cell) : Nat → Nat → Option Nat
  | 0, _ => none
  | fuel + 1, i => if matchAt s i then some i else searchIdxFrom s fuel (i + 1)

/-- `extract_sid_from_filename(text)`: `re.search(r'\b00\d{7}\b', text)`,
returning the raw text of the leftmost match, or `none`. -/
def extract_sid_from_filename (s : Cell) : Option Cell :=
  (searchIdxFrom s s.length 0).map (fun i => (s.drop i).take 9)

/-- `VALID_IMAGE_EXTENSIONS` of `sidmatch.py`. -/
def VALID_IMAGE_EXTENSIONS : List Cell :=
  [".jpg".data, ".jpeg".data, ".png".data, ".tif".data, ".tiff".data, ".pdf".data]

/-- The extension part of `os.path.splitext(p)` for a path without directory
separators: the suffix from the last `'.'`, unless every character before
that last `'.'` is itself a `'.'` (then the extension is empty). -/
def splitext_ext (s : Cell) : Cell :=
  match ((List.range s.length).filter (fun i => s.getD i ' ' = '.')).getLast? with
  | none => []
  | some i => if (s.take i).all (· = '.') then [] else s.drop i

/-- `os.path.splitext(val)[1].lower()` as used on cells in filename mode. -/
def extension_of (s : Cell) : Cell := (splitext_ext s).map Char.toLower

/-- `looks_like_valid_filename(value)`: non-empty, lowercased extension in
the allow-list, and a SID substring is found. -/
def looks_like_valid_filename (value : Cell) : Bool :=
  !value.isEmpty &&
  VALID_IMAGE_EXTENSIONS.contains (extension_of value) &&
  (extract_sid_from_filename value).isSome

/-- The two extraction strategies of `extract_sids_from_csv`: raw-column
SIDs, or SIDs embedded in filenames. -/
inductive Mode
  | column
  | filename
deriving DecidableEq

/-- The per-row outcome inside the extraction loop: a normalized SID added
to the set, or the reason string written to the error log. -/
inductive RowOutcome
  | ok (sid : Cell)
  | fail (reason : Cell)
deriving DecidableEq

/-- Column-mode handling of one stripped cell (lines 185–189): an invalid
value raises "Invalid SID format: <value>"; otherwise `sid.lstrip("0")` is
added to the set. -/
def columnCellOutcome (sid : Cell) : RowOutcome :=
  if validate_sid sid then .ok (lstrip0 sid)
  else .fail ("Invalid SID format: ".data ++ sid)

/-- The body of the column-mode extraction loop for one row (lines 183–189):
`len(row) <= sid_col` raises "Row too short"; otherwise the stripped cell is
handled by `columnCellOutcome`. -/
def columnRowOutcome (col : Nat) (row : List Cell) : RowOutcome :=
  if row.length ≤ col then .fail "Row too short".data
  else columnCellOutcome (pystrip (row.getD col []))

/-- Filename-mode handling of one stripped cell (lines 220–228): no SID
substring raises "No SID found in filename"; a disallowed extension raises
"Invalid file extension: <ext>"; otherwise `sid.lstrip("0")` is added. -/
def filenameCellOutcome (val : Cell) : RowOutcome :=
  match extract_sid_from_filename val with
  | none => .fail "No SID found in filename".data
  | some sid =>
      if VALID_IMAGE_EXTENSIONS.contains (extension_of val) then .ok (lstrip0 sid)
      else .fail ("Invalid file extension: ".data ++ extension_of val)

/-- The body of the filename-mode extraction loop for one row (lines 218–228):
`len(row) <= fname_col` raises "Row too short"; otherwise the stripped cell
is handled by `filenameCellOutcome`. -/
def filenameRowOutcome (col : Nat) (row : List Cell) : RowOutcome :=
  if row.length ≤ col then .fail "Row too short".data
  else filenameCellOutcome (pystrip (row.getD col []))

/-- The per-row outcome of the selected mode. -/
def rowOutcome : Mode → Nat → List Cell → RowOutcome
  | .column => columnRowOutcome
  | .filename => filenameRowOutcome

/-- The state of one extraction pass: the accumulated set of normalized
SIDs, the `total_lines` counter, and the failure records written to the
error log, as `(line number, reason)` pairs (the constant file label of
each log line is elided). -/
structure PassResult where
  sids : Finset Cell
  total : Nat
  failures : List (Nat × Cell)
deriving DecidableEq

/-- One iteration of the extraction loop: `total_lines += 1`, then either
add the normalized SID to the set or append a failure record. -/
def stepRow (mode : Mode) (col : Nat) (acc : PassResult) (row : List Cell) : PassResult :=
  match rowOutcome mode col row with
  | .ok sid => ⟨insert sid acc.sids, acc.total + 1, acc.failures⟩
  | .fail r => ⟨acc.sids, acc.total + 1, acc.failures ++ [(acc.total + 1, r)]⟩

/-- `next(reader, None)` header skip: drop the first row when
`has_header` holds. -/
def applyHeader (hasHeader : Bool) (rows : List (List Cell)) : List (List Cell) :=
  if hasHeader then rows.drop 1 else rows

/-- The full extraction pass of `extract_sids_from_csv` over the data rows:
header skip, then the loop `for row in reader` starting from an empty set,
a zero line counter and an empty log. -/
def extractPass (mode : Mode) (hasHeader : Bool) (col : Nat)
    (rows : List (List Cell)) : PassResult :=
  (applyHeader hasHeader rows).foldl (stepRow mode col) ⟨∅, 0, []⟩

/-- The feasibility probe's per-row qualification test: the generator
condition `len(row) > col` together with `validate_sid(row[col].strip())`
(column mode, line 172) or `looks_like_valid_filename(row[col].strip())`
(filename mode, line 207). -/
def probeQual (mode : Mode) (col : Nat) (row : List Cell) : Bool :=
  decide (col < row.length) &&
  (match mode with
   | .column => validate_sid (pystrip (row.getD col []))
   | .filename => looks_like_valid_filename (pystrip (row.getD col [])))

/-- The feasibility probe: `any(... for row in reader if len(row) > col)`
after the same header skip as the full pass. -/
def probe (mode : Mode) (hasHeader : Bool) (col : Nat)
    (rows : List (List Cell)) : Bool :=
  (applyHeader hasHeader rows).any (probeQual mode col)

/-- The observable outcome of `main` past the first extraction: either the
early `sys.exit(1)`, or the three reconciliation sets. -/
inductive RunOutcome
  | earlyExit
  | compared (common onlyA onlyB : Finset Cell)
deriving DecidableEq

/-- The reconciliation step of `main` (lines 252–254):
`common = sids1 & sids2`, `only1 = sids1 - sids2`, `only2 = sids2 - sids1`. -/
def reconcile (setA setB : Finset Cell) : Finset Cell × Finset Cell × Finset Cell :=
  (setA ∩ setB, setA \ setB, setB \ setA)

/-- The control flow of `main` after the first source's extraction
(lines 242–254): if `total1 == 0`, exit early; otherwise run the second
source's extraction (passed as a thunk, since `main` only invokes it past
the exit check) and reconcile the two sets. -/
def mainFlow (sids1 : Finset Cell) (total1 : Nat)
    (extract2 : Unit → Finset Cell × Nat) : RunOutcome :=
  if total1 = 0 then .earlyExit
  else
    let r2 := extract2 ()
    .compared (sids1 ∩ r2.1) (sids1 \ r2.1) (r2.1 \ sids1)

/-- The SID that one row contributes, if any (specification helper for the
structural description of the loop). -/
def okSid (mode : Mode) (col : Nat) (row : List Cell) : Option Cell :=
  match rowOutcome mode col row with
  | .ok sid => some sid
  | .fail _ => none

/-- The failure records that a run of rows appends, when the line counter
starts at `n0` (specification helper for the structural description of the
loop). -/
def failRecords (mode : Mode) (col : Nat) : Nat → List (List Cell) → List (Nat × Cell)
  | _, [] => []
  | n0, row :: rest =>
      match rowOutcome mode col row with
      | .ok _ => failRecords mode col (n0 + 1) rest
      | .fail r => (n0 + 1, r) :: failRecords mode col (n0 + 1) rest

/-- The rows of the spec's end-to-end scenario 1, exactly as written there. -/
def scenario1Rows : List (List Cell) :=
  [["0001234567".data, "x".data], ["1234567".data, "y".data], ["bad".data, "z".data]]

/-- The rows of scenario 1 with the first cell corrected to the 9-character
zero-padded form that the validator accepts. -/
def scenario1RowsAmended : List (List Cell) :=
  [["001234567".data, "x".data], ["1234567".data, "y".data], ["bad".data, "z".data]]

/-! ## Lemmas about the search scan -/

theorem matchAt_false_of_le (s : Cell) (i : Nat) (h : s.length ≤ i) :
    matchAt s i = false := by
  have hdrop : s.drop i = [] := List.drop_eq_nil_of_le h
  simp [matchAt, sidPattern, hdrop]

theorem searchIdxFrom_some (s : Cell) :
    ∀ fuel i k, searchIdxFrom s fuel i = some k →
      i ≤ k ∧ matchAt s k = true ∧ ∀ j, i ≤ j → j < k → matchAt s j = false := by
  intro fuel
  induction fuel with
  | zero => intro i k h; simp [searchIdxFrom] at h
  | succ n ih =>
      intro i k h
      rw [searchIdxFrom] at h
      by_cases hm : matchAt s i = true
      · rw [if_pos hm] at h
        injection h with h
        subst h
        exact ⟨Nat.le_refl _, hm, fun j hj1 hj2 => absurd (Nat.lt_of_le_of_lt hj1 hj2) (Nat.lt_irrefl _)⟩
      · rw [if_neg hm] at h
        obtain ⟨h1, h2, h3⟩ := ih (i + 1) k h
        refine ⟨Nat.le_of_succ_le h1, h2, fun j hj1 hj2 => ?_⟩
        rcases Nat.eq_or_lt_of_le hj1 with heq | hlt
        · subst heq; exact Bool.eq_false_iff.mpr hm
        · exact h3 j hlt hj2

theorem searchIdxFrom_none (s : Cell) :
    ∀ fuel i, searchIdxFrom s fuel i = none →
      ∀ j, i ≤ j → j < i + fuel → matchAt s j = false := by
  intro fuel
  induction fuel with
  | zero => intro i _ j hj1 hj2; omega
  | succ n ih =>
      intro i h j hj1 hj2
      rw [searchIdxFrom] at h
      by_cases hm : matchAt s i = true
      · rw [if_pos hm] at h; exact absurd h (by simp)
      · rw [if_neg hm] at h
        rcases Nat.eq_or_lt_of_le hj1 with heq | hlt
        · subst heq; exact Bool.eq_false_iff.mpr hm
        · exact ih (i + 1) h j hlt (by omega)

theorem extract_none_iff (s : Cell) :
    extract_sid_from_filename s = none ↔ ∀ i, matchAt s i = false := by
  constructor
  · intro h i
    cases hfind : searchIdxFrom s s.length 0 with
    | none =>
        by_cases hi : i < s.length
        · exact searchIdxFrom_none s s.length 0 hfind i (Nat.zero_le _) (by omega)
        · exact matchAt_false_of_le s i (by omega)
    | some k =>
        rw [extract_sid_from_filename, hfind] at h
        exact absurd h (by simp)
  · intro h
    rw [extract_sid_from_filename]
    cases hfind : searchIdxFrom s s.length 0 with
    | none => rfl
    | some k =>
        obtain ⟨_, hk, _⟩ := searchIdxFrom_some s s.length 0 k hfind
        rw [h k] at hk; exact absurd hk (by simp)

theorem extract_some_elim (s m : Cell)
    (h : extract_sid_from_filename s = some m) :
    ∃ i, matchAt s i = true ∧ m = (s.drop i).take 9 ∧
      ∀ j, j < i → matchAt s j = false := by
  rw [extract_sid_from_filename] at h
  cases hfind : searchIdxFrom s s.length 0 with
  | none => rw [hfind] at h; exact absurd h (by simp)
  | some k =>
      rw [hfind] at h
      obtain ⟨_, hk, hmin⟩ := searchIdxFrom_some s s.length 0 k hfind
      refine ⟨k, hk, ?_, fun j hj => hmin j (Nat.zero_le _) hj⟩
      simpa using h.symm

/-! ## Lemmas about the validator and the pattern body -/

theorem validate_of_sidPattern (m : Cell) (h : sidPattern m = true) :
    validate_sid m = true := by
  simp only [sidPattern, Bool.and_eq_true, decide_eq_true_eq] at h
  simp only [validate_sid, Bool.or_eq_true, Bool.and_eq_true, decide_eq_true_eq]
  exact Or.inr ⟨⟨h.1.1, h.1.2⟩, h.2⟩

theorem sidPattern_of_matchAt (s : Cell) (i : Nat) (h : matchAt s i = true) :
    sidPattern ((s.drop i).take 9) = true := by
  simp only [matchAt, Bool.and_eq_true] at h
  exact h.1.1

theorem validate_sid_iff (s : Cell) :
    validate_sid s = true ↔
      ((s.length = 7 ∧ ∀ c ∈ s, c.isDigit = true) ∨
       (s.length = 9 ∧ s.take 2 = ['0', '0'] ∧ ∀ c ∈ s.drop 2, c.isDigit = true)) := by
  simp [validate_sid, List.all_eq_true, and_assoc]

theorem validate_all_digits (s : Cell) (h : validate_sid s = true) :
    ∀ c ∈ s, c.isDigit = true := by
  rw [validate_sid_iff] at h
  rcases h with ⟨_, hall⟩ | ⟨_, htake, hdig⟩
  · exact hall
  · intro c hc
    have hsplit : s.take 2 ++ s.drop 2 = s := List.take_append_drop 2 s
    rw [← hsplit, List.mem_append] at hc
    rcases hc with hc | hc
    · rw [htake] at hc
      simp only [List.mem_cons, List.not_mem_nil, or_false] at hc
      rcases hc with rfl | rfl <;> decide
    · exact hdig c hc

theorem validate_length (s : Cell) (h : validate_sid s = true) :
    s.length = 7 ∨ s.length = 9 := by
  rw [validate_sid_iff] at h
  rcases h with ⟨hlen, _⟩ | ⟨hlen, _, _⟩
  · exact Or.inl hlen
  · exact Or.inr hlen

/-! ## Lemmas about the normalizer -/

theorem lstrip0_head (s : Cell) : (lstrip0 s).head? ≠ some '0' := by
  induction s with
  | nil => simp [lstrip0]
  | cons c t ih =>
      by_cases hc : c = '0'
      · subst hc; simpa [lstrip0] using ih
      · simp [lstrip0, hc]

theorem lstrip0_idem (s : Cell) : lstrip0 (lstrip0 s) = lstrip0 s := by
  induction s with
  | nil => simp [lstrip0]
  | cons c t ih =>
      by_cases hc : c = '0'
      · subst hc; simpa [lstrip0] using ih
      · simp [lstrip0, hc]

theorem lstrip0_replicate_append (n : Nat) (t : Cell) :
    lstrip0 (List.replicate n '0' ++ t) = lstrip0 t := by
  induction n with
  | zero => simp
  | succ m _ => simp [lstrip0, List.replicate_succ]

theorem lstrip0_eq_nil_iff (s : Cell) :
    lstrip0 s = [] ↔ ∀ c ∈ s, c = '0' := by
  induction s with
  | nil => simp [lstrip0]
  | cons c t _ =>
      by_cases hc : c = '0'
      · subst hc; simp [lstrip0]
      · simp [lstrip0, hc]

/-! ## Structural lemmas about the extraction pass -/

theorem foldl_stepRow_total (mode : Mode) (col : Nat) :
    ∀ (rows : List (List Cell)) (acc : PassResult),
      (rows.foldl (stepRow mode col) acc).total = acc.total + rows.length := by
  intro rows
  induction rows with
  | nil => intro acc; simp
  | cons row rest ih =>
      intro acc
      rw [List.foldl_cons, ih]
      cases h : rowOutcome mode col row <;>
        simp [stepRow, h] <;> omega

theorem foldl_stepRow_sids (mode : Mode) (col : Nat) :
    ∀ (rows : List (List Cell)) (acc : PassResult),
      (rows.foldl (stepRow mode col) acc).sids =
        acc.sids ∪ (rows.filterMap (okSid mode col)).toFinset := by
  intro rows
  induction rows with
  | nil => intro acc; simp
  | cons row rest ih =>
      intro acc
      rw [List.foldl_cons, ih]
      cases h : rowOutcome mode col row with
      | ok sid =>
          simp [stepRow, okSid, h, List.filterMap_cons, Finset.insert_union,
            Finset.union_insert]
      | fail r =>
          simp [stepRow, okSid, h, List.filterMap_cons]

theorem foldl_stepRow_failures (mode : Mode) (col : Nat) :
    ∀ (rows : List (List Cell)) (acc : PassResult),
      (rows.foldl (stepRow mode col) acc).failures =
        acc.failures ++ failRecords mode col acc.total rows := by
  intro rows
  induction rows with
  | nil => intro acc; simp [failRecords]
  | cons row rest ih =>
      intro acc
      rw [List.foldl_cons, ih]
      cases h : rowOutcome mode col row with
      | ok sid => simp [stepRow, failRecords, h]
      | fail r => simp [stepRow, failRecords, h]

/-! ## Probe / extraction agreement -/

theorem extract_nil : extract_sid_from_filename [] = none := rfl

theorem looks_iff (v : Cell) :
    looks_like_valid_filename v = true ↔
      ((extract_sid_from_filename v).isSome = true ∧
       VALID_IMAGE_EXTENSIONS.contains (extension_of v) = true) := by
  cases v with
  | nil => simp [looks_like_valid_filename, extract_nil]
  | cons c t =>
      simp [looks_like_valid_filename, and_comm]

theorem columnCellOutcome_ok_iff (v : Cell) :
    (∃ sid, columnCellOutcome v = RowOutcome.ok sid) ↔ validate_sid v = true := by
  by_cases hv : validate_sid v = true
  · simp [columnCellOutcome, hv]
  · simp [columnCellOutcome, hv]

theorem filenameCellOutcome_ok_iff (v : Cell) :
    (∃ sid, filenameCellOutcome v = RowOutcome.ok sid) ↔
      looks_like_valid_filename v = true := by
  rw [looks_iff]
  cases hex : extract_sid_from_filename v with
  | none => simp [filenameCellOutcome, hex]
  | some m =>
      by_cases hext : extension_of v ∈ VALID_IMAGE_EXTENSIONS
      · simp [filenameCellOutcome, hex, hext]
      · simp [filenameCellOutcome, hex, hext]

theorem probeQual_iff_ok (mode : Mode) (col : Nat) (row : List Cell) :
    probeQual mode col row = true ↔
      ∃ sid, rowOutcome mode col row = RowOutcome.ok sid := by
  cases mode with
  | column =>
      have hpq : probeQual Mode.column col row =
          (decide (col < row.length) && validate_sid (pystrip (row.getD col []))) := rfl
      rw [hpq, Bool.and_eq_true, decide_eq_true_eq]
      show _ ↔ ∃ sid, columnRowOutcome col row = RowOutcome.ok sid
      by_cases hlen : row.length ≤ col
      · constructor
        · intro h; exact absurd hlen (by omega)
        · rintro ⟨sid, hok⟩
          rw [columnRowOutcome, if_pos hlen] at hok
          exact RowOutcome.noConfusion hok
      · constructor
        · intro h
          obtain ⟨sid, hok⟩ := (columnCellOutcome_ok_iff _).mpr h.2
          exact ⟨sid, by rw [columnRowOutcome, if_neg hlen]; exact hok⟩
        · rintro ⟨sid, hok⟩
          rw [columnRowOutcome, if_neg hlen] at hok
          exact ⟨by omega, (columnCellOutcome_ok_iff _).mp ⟨sid, hok⟩⟩
  | filename =>
      have hpq : probeQual Mode.filename col row =
          (decide (col < row.length) &&
            looks_like_valid_filename (pystrip (row.getD col []))) := rfl
      rw [hpq, Bool.and_eq_true, decide_eq_true_eq]
      show _ ↔ ∃ sid, filenameRowOutcome col row = RowOutcome.ok sid
      by_cases hlen : row.length ≤ col
      · constructor
        · intro h; exact absurd hlen (by omega)
        · rintro ⟨sid, hok⟩
          rw [filenameRowOutcome, if_pos hlen] at hok
          exact RowOutcome.noConfusion hok
      · constructor
        · intro h
          obtain ⟨sid, hok⟩ := (filenameCellOutcome_ok_iff _).mpr h.2
          exact ⟨sid, by rw [filenameRowOutcome, if_neg hlen]; exact hok⟩
        · rintro ⟨sid, hok⟩
          rw [filenameRowOutcome, if_neg hlen] at hok
          exact ⟨by omega, (filenameCellOutcome_ok_iff _).mp ⟨sid, hok⟩⟩

theorem probe_iff_sids_nonempty (mode : Mode) (hasHeader : Bool) (col : Nat)
    (rows : List (List Cell)) :
    probe mode hasHeader col rows = true ↔
      (extractPass mode hasHeader col rows).sids ≠ ∅ := by
  rw [probe, extractPass, foldl_stepRow_sids]
  simp only [Finset.empty_union]
  rw [List.any_eq_true]
  constructor
  · rintro ⟨row, hmem, hq⟩
    obtain ⟨sid, hok⟩ := (probeQual_iff_ok mode col row).mp hq
    intro hemp
    have hsid : sid ∈ (List.filterMap (okSid mode col) (applyHeader hasHeader rows)).toFinset := by
      rw [List.mem_toFinset, List.mem_filterMap]
      exact ⟨row, hmem, by simp [okSid, hok]⟩
    rw [hemp] at hsid
    exact absurd hsid (Finset.not_mem_empty sid)
  · intro hne
    obtain ⟨sid, hsid⟩ := Finset.nonempty_iff_ne_empty.mpr hne
    rw [List.mem_toFinset, List.mem_filterMap] at hsid
    obtain ⟨row, hmem, hok⟩ := hsid
    refine ⟨row, hmem, (probeQual_iff_ok mode col row).mpr ⟨sid, ?_⟩⟩
    revert hok
    unfold okSid
    cases h : rowOutcome mode col row <;> simp_all

/-- Every string returned by the filename extractor is the literal `"00"`
followed by seven digits, and passes the validator. -/
theorem extract_sid_pattern_valid (s m : Cell)
    (h : extract_sid_from_filename s = some m) :
    sidPattern m = true ∧ validate_sid m = true := by
  obtain ⟨i, hm, heq, -⟩ := extract_some_elim s m h
  have hp : sidPattern ((s.drop i).take 9) = true := sidPattern_of_matchAt s i hm
  rw [heq]
  exact ⟨hp, validate_of_sidPattern _ hp⟩

/-! ## The claims -/

/-- Claim C3: the validator is total and side-effect free (it is a Lean
function on `List Char`), and accepts a token iff the whole token is an
optional literal two-zero prefix followed by exactly seven decimal digits;
it rejects every string whose length is neither 7 nor 9, and every string
containing a non-digit character. -/
theorem claim_C3 :
    (∀ s : Cell, validate_sid s = true ↔
        ((s.length = 7 ∧ ∀ c ∈ s, c.isDigit = true) ∨
         (s.length = 9 ∧ s.take 2 = ['0', '0'] ∧ ∀ c ∈ s.drop 2, c.isDigit = true))) ∧
    (∀ s : Cell, s.length ≠ 7 → s.length ≠ 9 → validate_sid s = false) ∧
    (∀ s : Cell, (∃ c ∈ s, c.isDigit = false) → validate_sid s = false) := by
  refine ⟨validate_sid_iff, ?_, ?_⟩
  · intro s h7 h9
    by_contra h
    have hv : validate_sid s = true := by
      revert h; cases validate_sid s <;> simp
    rcases validate_length s hv with h | h
    · exact h7 h
    · exact h9 h
  · intro s h
    obtain ⟨c, hc, hcd⟩ := h
    by_contra h
    have hv : validate_sid s = true := by
      revert h; cases validate_sid s <;> simp
    have := validate_all_digits s hv c hc
    rw [this] at hcd
    exact Bool.noConfusion hcd

/-- Witness for C3 at concrete inputs: an 8-character all-digit string and a
7-character string with a letter are both rejected. -/
theorem claim_C3_witness :
    validate_sid "12345678".data = false ∧ validate_sid "12a4567".data = false :=
  ⟨claim_C3.2.1 "12345678".data (by decide) (by decide),
   claim_C3.2.2 "12a4567".data ⟨'a', by decide, by decide⟩⟩

/-- Counterexample to C4 as stated: the all-zero string `"0000000"` is
accepted by the validator and normalizes to the empty string. -/
theorem claim_C4_counterexample :
    validate_sid "0000000".data = true ∧ lstrip0 "0000000".data = [] := by
  decide

/-- Claim C4 (amended): for every validator-accepted string, normalization
yields a non-empty string iff the string contains a non-zero character; the
all-zero SIDs `"0000000"` and `"000000000"` pass the validator and
normalize to the empty string, so an empty normalization result can occur. -/
theorem claim_C4 :
    ∀ s : Cell, validate_sid s = true → (lstrip0 s ≠ [] ↔ ∃ c ∈ s, c ≠ '0') := by
  intro s _
  simp [lstrip0_eq_nil_iff]

/-- Witness for C4 at a concrete input: `"001234567"` normalizes to a
non-empty string. -/
theorem claim_C4_witness : lstrip0 "001234567".data ≠ [] :=
  (claim_C4 "001234567".data (by decide)).mpr ⟨'1', by decide, by decide⟩

/-- Claim C5: for every valid raw SID, the normalized form has no leading
zero and normalization is idempotent; any two raw SIDs differing only in
leading-zero padding normalize to the same key, and in particular
`"001234567"` and `"1234567"` both normalize to `"1234567"`. -/
theorem claim_C5 :
    (∀ s : Cell, validate_sid s = true →
        (lstrip0 s).head? ≠ some '0' ∧ lstrip0 (lstrip0 s) = lstrip0 s) ∧
    (∀ (a b : Nat) (t : Cell),
        lstrip0 (List.replicate a '0' ++ t) = lstrip0 (List.replicate b '0' ++ t)) ∧
    lstrip0 "001234567".data = "1234567".data ∧
    lstrip0 "1234567".data = "1234567".data := by
  refine ⟨fun s _ => ⟨lstrip0_head s, lstrip0_idem s⟩, fun a b t => ?_, by decide, by decide⟩
  rw [lstrip0_replicate_append, lstrip0_replicate_append]

/-- Witness for C5 at a concrete input: the valid SID `"001234567"`. -/
theorem claim_C5_witness :
    (lstrip0 "001234567".data).head? ≠ some '0' ∧
      lstrip0 (lstrip0 "001234567".data) = lstrip0 "001234567".data :=
  claim_C5.1 "001234567".data (by decide)

/-- Claim C6: reconciliation is pure set algebra — `common = A ∩ B`,
`onlyA = A \ B`, `onlyB = B \ A` (the inputs are values, never mutated);
the three outputs cover `A ∪ B`, are pairwise disjoint, and
`reconcile A A = (A, ∅, ∅)`. -/
theorem claim_C6 :
    ∀ A B : Finset Cell,
      reconcile A B = (A ∩ B, A \ B, B \ A) ∧
      (reconcile A B).1 ∪ (reconcile A B).2.1 ∪ (reconcile A B).2.2 = A ∪ B ∧
      (reconcile A B).1 ∩ (reconcile A B).2.1 = ∅ ∧
      (reconcile A B).1 ∩ (reconcile A B).2.2 = ∅ ∧
      (reconcile A B).2.1 ∩ (reconcile A B).2.2 = ∅ ∧
      reconcile A A = (A, ∅, ∅) := by
  intro A B
  refine ⟨rfl, ?_, ?_, ?_, ?_, ?_⟩
  · ext x
    by_cases hA : x ∈ A <;> by_cases hB : x ∈ B <;> simp [reconcile, hA, hB]
  · ext x
    by_cases hA : x ∈ A <;> by_cases hB : x ∈ B <;> simp [reconcile, hA, hB]
  · ext x
    by_cases hA : x ∈ A <;> by_cases hB : x ∈ B <;> simp [reconcile, hA, hB]
  · ext x
    by_cases hA : x ∈ A <;> by_cases hB : x ∈ B <;> simp [reconcile, hA, hB]
  · simp [reconcile]

/-- Witness for C6 at the spec's scenario 4 sets. -/
theorem claim_C6_witness :
    reconcile {"1234567".data, "2345678".data} {"2345678".data, "3456789".data} =
      ({"2345678".data}, {"1234567".data}, {"3456789".data}) := by
  have h := claim_C6 {"1234567".data, "2345678".data} {"2345678".data, "3456789".data}
  rw [h.1]
  decide

/-- Claim C8: in either mode, a row with fewer cells than `column index + 1`
contributes exactly one failure record with reason "Row too short", no set
insertion, and one increment of the line counter; the pass never aborts —
every data row is processed and counted exactly once. -/
theorem claim_C8 :
    (∀ (mode : Mode) (col : Nat) (acc : PassResult) (row : List Cell),
        row.length < col + 1 →
        stepRow mode col acc row =
          ⟨acc.sids, acc.total + 1,
           acc.failures ++ [(acc.total + 1, "Row too short".data)]⟩) ∧
    (∀ (mode : Mode) (hasHeader : Bool) (col : Nat) (rows : List (List Cell)),
        (extractPass mode hasHeader col rows).total =
          (applyHeader hasHeader rows).length) := by
  constructor
  · intro mode col acc row hrow
    have hlen : row.length ≤ col := by omega
    have hout : rowOutcome mode col row = RowOutcome.fail "Row too short".data := by
      cases mode with
      | column =>
          show columnRowOutcome col row = _
          rw [columnRowOutcome, if_pos hlen]
      | filename =>
          show filenameRowOutcome col row = _
          rw [filenameRowOutcome, if_pos hlen]
    unfold stepRow
    rw [hout]
  · intro mode hasHeader col rows
    rw [extractPass, foldl_stepRow_total]
    simp

/-- Witness for C8 at a concrete short row. -/
theorem claim_C8_witness :
    stepRow Mode.column 1 ⟨∅, 0, []⟩ ["a".data] =
      ⟨∅, 1, [(1, "Row too short".data)]⟩ :=
  claim_C8.1 Mode.column 1 ⟨∅, 0, []⟩ ["a".data] (by decide)

/-- Claim C9: when the first source's extraction reports zero processed
rows, `main` exits early, independently of the second source's extraction
(which is never invoked); when the first total is non-zero the comparison
always proceeds, even if the second source reports zero rows. -/
theorem claim_C9 :
    ∀ (sids1 : Finset Cell) (total1 : Nat) (f g : Unit → Finset Cell × Nat),
      (total1 = 0 →
        mainFlow sids1 total1 f = RunOutcome.earlyExit ∧
        mainFlow sids1 total1 f = mainFlow sids1 total1 g) ∧
      (total1 ≠ 0 →
        mainFlow sids1 total1 f =
          RunOutcome.compared (sids1 ∩ (f ()).1) (sids1 \ (f ()).1)
            ((f ()).1 \ sids1)) := by
  intro sids1 total1 f g
  constructor
  · intro h
    subst h
    exact ⟨rfl, rfl⟩
  · intro h
    unfold mainFlow
    rw [if_neg h]

/-- Witness for C9: a zero first total exits early; a non-zero first total
with a zero-row second source still compares. -/
theorem claim_C9_witness :
    mainFlow ∅ 0 (fun _ => (∅, 0)) = RunOutcome.earlyExit ∧
    mainFlow {"1234567".data} 3 (fun _ => (∅, 0)) =
      RunOutcome.compared ({"1234567".data} ∩ ∅) ({"1234567".data} \ ∅)
        (∅ \ {"1234567".data}) :=
  ⟨((claim_C9 ∅ 0 (fun _ => (∅, 0)) (fun _ => (∅, 0))).1 rfl).1,
   (claim_C9 {"1234567".data} 3 (fun _ => (∅, 0)) (fun _ => (∅, 0))).2 (by decide)⟩

/-- Claim C7: for every mode, header flag, column index and row sequence,
the feasibility probe succeeds exactly when the full extraction pass over
the same source inserts at least one SID, and on each row the probe's
qualification test agrees with the full pass's success condition. -/
theorem claim_C7 :
    ∀ (mode : Mode) (hasHeader : Bool) (col : Nat) (rows : List (List Cell)),
      (probe mode hasHeader col rows = true ↔
        (extractPass mode hasHeader col rows).sids ≠ ∅) ∧
      (∀ row ∈ applyHeader hasHeader rows,
        (probeQual mode col row = true ↔
          ∃ sid, rowOutcome mode col row = RowOutcome.ok sid)) :=
  fun mode hasHeader col rows =>
    ⟨probe_iff_sids_nonempty mode hasHeader col rows,
     fun row _ => probeQual_iff_ok mode col row⟩

/-- Witness for C7 at a concrete row of scenario 1's source. -/
theorem claim_C7_witness :
    probeQual Mode.column 0 ["1234567".data, "y".data] = true ↔
      ∃ sid, rowOutcome Mode.column 0 ["1234567".data, "y".data] = RowOutcome.ok sid :=
  (claim_C7 Mode.column false 0 scenario1RowsAmended).2
    ["1234567".data, "y".data] (by decide)

/-- Claim C10: whenever the filename extractor returns a string, that string
is the literal `"00"` followed by seven digits and satisfies the validator;
consequently in filename mode every SID inserted into the set is the
normalization of a validator-valid raw SID, although the validator is never
called on that path. -/
theorem claim_C10 :
    (∀ s m : Cell, extract_sid_from_filename s = some m →
        sidPattern m = true ∧ validate_sid m = true) ∧
    (∀ (col : Nat) (row : List Cell) (sid : Cell),
        rowOutcome Mode.filename col row = RowOutcome.ok sid →
        ∃ raw, validate_sid raw = true ∧ sid = lstrip0 raw) := by
  constructor
  · exact extract_sid_pattern_valid
  · intro col row sid hok
    have hok' : filenameRowOutcome col row = RowOutcome.ok sid := hok
    rw [filenameRowOutcome] at hok'
    by_cases hlen : row.length ≤ col
    · rw [if_pos hlen] at hok'
      exact absurd hok' (by simp)
    · rw [if_neg hlen] at hok'
      unfold filenameCellOutcome at hok'
      split at hok'
      · exact absurd hok' (by simp)
      · next m hex =>
          split at hok'
          · injection hok' with hsid
            exact ⟨m, (extract_sid_pattern_valid _ m hex).2, hsid.symm⟩
          · exact absurd hok' (by simp)

/-- Witness for C10 at a concrete filename row. -/
theorem claim_C10_witness :
    ∃ raw, validate_sid raw = true ∧ ("1234567".data : Cell) = lstrip0 raw :=
  claim_C10.2 0 ["scan-001234567-front.pdf".data] "1234567".data (by decide)

/-- Counterexample to C1 as stated: on the cell
`"scan_001234567_front.pdf"` the extractor returns `none`, not
`"001234567"`, because `'_'` is a regex word character, so the digit run is
not word-boundary-delimited there. -/
theorem claim_C1_counterexample :
    extract_sid_from_filename "scan_001234567_front.pdf".data = none := by
  decide

/-- Claim C1 (amended): for every input string the extractor returns the
raw text of the leftmost word-boundary-delimited `"00"`-plus-seven-digit
match, or `none` when no position matches; the scenario cell must use
non-word delimiters: for `"scan-001234567-front.pdf"` it extracts
`"001234567"`, which normalizes to `"1234567"`, and the extension `.pdf`
passes the extension check (the original cell `"scan_001234567_front.pdf"`
yields `none`, since `'_'` is a word character). -/
theorem claim_C1 :
    (∀ s : Cell, extract_sid_from_filename s = none ↔ ∀ i, matchAt s i = false) ∧
    (∀ s m : Cell, extract_sid_from_filename s = some m →
        ∃ i, matchAt s i = true ∧ m = (s.drop i).take 9 ∧
          ∀ j, j < i → matchAt s j = false) ∧
    extract_sid_from_filename "scan-001234567-front.pdf".data = some "001234567".data ∧
    lstrip0 "001234567".data = "1234567".data ∧
    VALID_IMAGE_EXTENSIONS.contains (extension_of "scan-001234567-front.pdf".data) = true :=
  ⟨extract_none_iff, extract_some_elim, by decide, by decide, by decide⟩

/-- Witness for C1 at the corrected scenario cell. -/
theorem claim_C1_witness :
    ∃ i, matchAt "scan-001234567-front.pdf".data i = true ∧
      ("001234567".data : Cell) = ("scan-001234567-front.pdf".data.drop i).take 9 ∧
      ∀ j, j < i → matchAt "scan-001234567-front.pdf".data j = false :=
  claim_C1.2.1 "scan-001234567-front.pdf".data "001234567".data (by decide)

/-- Counterexample to C2 as stated: on the spec's scenario 1 rows the full
pass does yield the set `{"1234567"}` and total 3, but it records two
failures — the 10-character first cell `"0001234567"` fails validation on
row 1, in addition to `"bad"` on row 3 — not exactly one. -/
theorem claim_C2_counterexample :
    extractPass Mode.column false 0 scenario1Rows =
      ⟨{"1234567".data}, 3,
       [(1, "Invalid SID format: 0001234567".data),
        (3, "Invalid SID format: bad".data)]⟩ := by
  decide

/-- Claim C2 (amended): with the first cell written as the 9-character
padded form `"001234567"` (the shape the validator accepts), the three rows
in column 0 with no header yield the result set `{"1234567"}` (the padded
and unpadded duplicates deduplicate to one key), a total line count of 3,
and exactly one failure record, logged for row 3. -/
theorem claim_C2 :
    extractPass Mode.column false 0 scenario1RowsAmended =
      ⟨{"1234567".data}, 3, [(3, "Invalid SID format: bad".data)]⟩ := by
  decide

end Sidmatch
